import Mathlib

/-!
# Verification of the caplena-python transport-and-materialization core

Shallow embedding of the three source files

* `caplena/http/http_response.py` (response envelope with lazy JSON parsing),
* `caplena/api.py` (`ApiVersion`, `ApiRequestor.build_request_headers`),
* `caplena/endpoints/base_endpoint.py` (`BaseController` verb dispatch and
  materialization, `BaseObject` schema/mutability/controller machinery),

together with theorems settling the frozen claims about the natural-language
specification.  Python exceptions are modelled by the `PyErr` inductive;
raising is modelled with `Except`.  Python dictionaries are modelled as
insertion-ordered association lists with Python `dict` update semantics.
-/

/-- JSON values, the payloads stored in response bodies and object fields. -/
inductive Json where
  | null : Json
  | bool (b : Bool) : Json
  | num (n : Int) : Json
  | str (s : String) : Json
  | arr (xs : List Json) : Json
  | obj (kvs : List (String × Json)) : Json

/-- A typed API error as the spec describes it.  Modelled from the spec:
`ApiRequestor.build_exc` is not under `src/`; per the spec it constructs a
typed API error "carrying status code, reason, and parsed-or-raw body". -/
structure ApiException where
  status_code : Nat
  reason : String
  body : Option String
deriving DecidableEq, Repr

/-- Python exception classes raised by the embedded code.  `attributeError`,
`valueError`, `keyError`, `typeError` and `jsonDecodeError` are the standard
Python classes; `apiException` is the library's typed API error;
`schemaViolation` models the spec's `SchemaViolationError` (raised by concrete
resource constructors, which are outside `src/`). -/
inductive PyErr where
  | attributeError (msg : String) : PyErr
  | valueError (msg : String) : PyErr
  | keyError (key : String) : PyErr
  | typeError (msg : String) : PyErr
  | jsonDecodeError (msg : String) : PyErr
  | apiException (e : ApiException) : PyErr
  | schemaViolation (msg : String) : PyErr
  | recursionError : PyErr
deriving DecidableEq, Repr

/-- The Python class name of an exception value (for comparing the *class*
of two raised errors, independent of their messages). -/
def PyErr.className : PyErr → String
  | .attributeError _ => "AttributeError"
  | .valueError _ => "ValueError"
  | .keyError _ => "KeyError"
  | .typeError _ => "TypeError"
  | .jsonDecodeError _ => "JSONDecodeError"
  | .apiException _ => "ApiException"
  | .schemaViolation _ => "SchemaViolationError"
  | .recursionError => "RecursionError"

/-- Class name of the error of a failed computation (`none` if it succeeded). -/
def errClassOf {α : Type} : Except PyErr α → Option String
  | .error e => some e.className
  | .ok _ => none

/-!
## Response envelope: `caplena/http/http_response.py`

```python
class HttpResponse:
    @property
    def json(self) -> Optional[Dict[str, Any]]:
        if self._json is not None:
            return self._json
        elif self.text:
            self._json = json.loads(self.text)
        else:
            return None

    def __init__(self, *, status_code, reason, text=None, headers=None):
        self.status_code = status_code
        self.reason = reason
        self.text = text
        self.headers = headers
```

The instance attribute `_json` is modelled by `jsonSlot : Option (Option Json)`:
the outer `none` means the attribute was never assigned (reading it raises
`AttributeError`), `some v` means the attribute holds the Python value `v`
(where the inner `Option` models Python `None`).  `__init__` assigns the four
public attributes and does not assign `_json`.  `json.loads` is the external
standard library; it is passed in as a parameter `loads` returning the parsed
Python value or a raised decode error.
-/

structure HttpResponse where
  status_code : Nat
  reason : String
  text : Option String
  headers : Option (List (String × String))
  jsonSlot : Option (Option Json)

/-- `HttpResponse.__init__`: stores status code, reason, text and headers.
It does not assign the `_json` attribute, hence `jsonSlot := none`. -/
def HttpResponse.init (status_code : Nat) (reason : String) (text : Option String)
    (headers : Option (List (String × String))) : HttpResponse :=
  { status_code := status_code, reason := reason, text := text, headers := headers,
    jsonSlot := none }

/-- Python truthiness of the optional `text` attribute: `True` exactly for a
present, non-empty string. -/
def textTruthy : Option String → Bool
  | none => false
  | some s => s ≠ ""

/-- The `HttpResponse.json` property, one access.  Returns the produced Python
value (`Option Json`, `none` being Python `None`) together with the response
state after the access (the `_json` attribute may have been assigned).
Mirrors the source line by line:

* `if self._json is not None: return self._json` — but first merely *reading*
  `self._json` raises `AttributeError` when the attribute was never assigned;
* `elif self.text: self._json = json.loads(self.text)` — note that this branch
  assigns the attribute and then falls off the end of the function, so the
  property call itself evaluates to `None`;
* `else: return None`. -/
def HttpResponse.jsonGet (loads : String → Except PyErr (Option Json))
    (r : HttpResponse) : Except PyErr (Option Json × HttpResponse) :=
  match r.jsonSlot with
  | none => .error (.attributeError "_json")
  | some slot =>
    match slot with
    | some j => .ok (some j, r)
    | none =>
      if textTruthy r.text then
        match loads (r.text.getD "") with
        | .ok v => .ok (none, { r with jsonSlot := some v })
        | .error e => .error e
      else
        .ok (none, r)

theorem jsonGet_fresh_raises : ∀ loads,
    HttpResponse.jsonGet loads (HttpResponse.init 200 "OK" (some "x") none)
      = .error (.attributeError "_json") := fun _ => rfl

/-!
## Python dictionaries as insertion-ordered association lists

`dlookup` is `d[k]`-style lookup (first matching key), `dictSet` is item
assignment `d[k] = v` (replaces the value in place if the key is present,
appends otherwise), `dictSetdefault` is `d.setdefault(k, v)`.
-/

/-- Lookup of a key in a Python dict modelled as an association list. -/
def dlookup {α : Type} : List (String × α) → String → Option α
  | [], _ => none
  | (k2, v) :: rest, k => if k = k2 then some v else dlookup rest k

/-- Python `d[k] = v`: replace in place when present, append when absent. -/
def dictSet {α : Type} (d : List (String × α)) (k : String) (v : α) :
    List (String × α) :=
  if (dlookup d k).isSome then
    d.map (fun p => if p.1 = k then (k, v) else p)
  else
    d ++ [(k, v)]

/-- Python `d.setdefault(k, v)`: insert only when the key is absent. -/
def dictSetdefault {α : Type} (d : List (String × α)) (k : String) (v : α) :
    List (String × α) :=
  if (dlookup d k).isSome then d else d ++ [(k, v)]

theorem dlookup_nil {α : Type} (k : String) :
    dlookup ([] : List (String × α)) k = none := rfl

theorem dlookup_cons {α : Type} (k2 : String) (v : α) (rest : List (String × α))
    (k : String) :
    dlookup ((k2, v) :: rest) k = if k = k2 then some v else dlookup rest k := rfl

theorem dlookup_append {α : Type} (d d' : List (String × α)) (k : String) :
    dlookup (d ++ d') k = ((dlookup d k).orElse (fun _ => dlookup d' k)) := by
  induction d with
  | nil => simp [dlookup]
  | cons p rest ih =>
    by_cases h : k = p.1 <;> simp [dlookup, h, ih]

theorem dlookup_mapSet_self {α : Type} (d : List (String × α)) (k : String) (v : α) :
    dlookup (d.map (fun p => if p.1 = k then (k, v) else p)) k
      = (dlookup d k).map (fun _ => v) := by
  induction d with
  | nil => rfl
  | cons p rest ih =>
    rcases p with ⟨k2, w⟩
    by_cases hp : k2 = k
    · subst hp
      simp [dlookup_cons]
    · have hk : ¬ k = k2 := fun he => hp he.symm
      simp [dlookup_cons, hp, hk, ih]

theorem dlookup_mapSet_ne {α : Type} (d : List (String × α)) (k k' : String) (v : α)
    (h : k' ≠ k) :
    dlookup (d.map (fun p => if p.1 = k then (k, v) else p)) k' = dlookup d k' := by
  induction d with
  | nil => rfl
  | cons p rest ih =>
    rcases p with ⟨k2, w⟩
    by_cases hp : k2 = k
    · subst hp
      simp [dlookup_cons, h, ih]
    · by_cases hk2 : k' = k2 <;> simp [dlookup_cons, hp, hk2, ih]

theorem dlookup_dictSet_self {α : Type} (d : List (String × α)) (k : String) (v : α) :
    dlookup (dictSet d k v) k = some v := by
  unfold dictSet
  cases hd : dlookup d k with
  | none =>
    simp only [hd, Option.isSome_none, Bool.false_eq_true, if_false]
    rw [dlookup_append, hd]
    simp [dlookup]
  | some w =>
    simp only [hd, Option.isSome_some, if_true]
    rw [dlookup_mapSet_self, hd]
    rfl

theorem dlookup_dictSet_ne {α : Type} (d : List (String × α)) (k k' : String) (v : α)
    (h : k' ≠ k) : dlookup (dictSet d k v) k' = dlookup d k' := by
  unfold dictSet
  cases hd : dlookup d k with
  | none =>
    simp only [hd, Option.isSome_none, Bool.false_eq_true, if_false]
    rw [dlookup_append]
    cases hd' : dlookup d k' with
    | none => simp [dlookup, h]
    | some w => simp
  | some w =>
    simp only [hd, Option.isSome_some, if_true]
    exact dlookup_mapSet_ne d k k' v h

theorem dlookup_dictSetdefault_ne {α : Type} (d : List (String × α)) (k k' : String)
    (v : α) (h : k' ≠ k) : dlookup (dictSetdefault d k v) k' = dlookup d k' := by
  unfold dictSetdefault
  cases hd : dlookup d k with
  | none =>
    simp only [hd, Option.isSome_none, Bool.false_eq_true, if_false]
    rw [dlookup_append]
    cases hd' : dlookup d k' with
    | none => simp [dlookup, h]
    | some w => simp
  | some w => simp [hd]

theorem dlookup_dictSetdefault_present {α : Type} (d : List (String × α))
    (k : String) (v w : α) (h : dlookup d k = some w) :
    dlookup (dictSetdefault d k v) k = some w := by
  unfold dictSetdefault
  simp [h]

theorem dlookup_dictSetdefault_absent {α : Type} (d : List (String × α))
    (k : String) (v : α) (h : dlookup d k = none) :
    dlookup (dictSetdefault d k v) k = some v := by
  unfold dictSetdefault
  simp only [h, Option.isSome_none, Bool.false_eq_true, if_false]
  rw [dlookup_append, h]
  simp [dlookup]

/-!
## `caplena/api.py`: `ApiVersion` and `ApiRequestor.build_request_headers`

Python's `str.replace(old, new)` replaces every occurrence of `old`, scanning
left to right.  `replaceRun` implements this on character lists with a fuel
argument equal to the input length (each step consumes at least one input
character, so the fuel never runs out on the inputs `pyReplace` supplies);
being structurally recursive on the fuel keeps it kernel-reducible.
-/

def replaceRun : Nat → List Char → List Char → List Char → List Char
  | 0, _, _, rest => rest
  | _ + 1, _, _, [] => []
  | n + 1, pat, rep, c :: rest =>
    if pat ≠ [] && pat.isPrefixOf (c :: rest) then
      rep ++ replaceRun n pat rep ((c :: rest).drop pat.length)
    else
      c :: replaceRun n pat rep rest

/-- Python `s.replace(pat, rep)` for a non-empty pattern. -/
def pyReplace (s pat rep : String) : String :=
  ⟨replaceRun s.data.length pat.data rep.data s.data⟩

theorem pyReplace_marker : pyReplace "VER_2021_12_01" "VER_" "" = "2021_12_01" := by
  decide

theorem pyReplace_hyphens : pyReplace "2021_12_01" "_" "-" = "2021-12-01" := by
  decide

/-- The `ApiVersion` enum of `caplena/api.py`:

```python
class ApiVersion(Enum):
    DEFAULT = 0
    VER_2021_12_01 = 1
``` -/
inductive ApiVersion where
  | DEFAULT : ApiVersion
  | VER_2021_12_01 : ApiVersion
deriving DecidableEq, Repr

/-- The Python `Enum` member name, `self.name`. -/
def ApiVersion.pyName : ApiVersion → String
  | .DEFAULT => "DEFAULT"
  | .VER_2021_12_01 => "VER_2021_12_01"

/-- The `ApiVersion.version` property:

```python
@property
def version(self) -> str:
    if self.name != ApiVersion.DEFAULT.name:
        return self.name.replace("VER_", "").replace("_", "-")
    else:
        raise ValueError(f"Cannot convert `{self.name}` to a valid version string.")
``` -/
def ApiVersion.version (v : ApiVersion) : Except PyErr String :=
  if v.pyName ≠ ApiVersion.DEFAULT.pyName then
    .ok (pyReplace (pyReplace v.pyName "VER_" "") "_" "-")
  else
    .error (.valueError ("Cannot convert `" ++ v.pyName ++ "` to a valid version string."))

theorem apiVersion_formats : ApiVersion.version .VER_2021_12_01 = .ok "2021-12-01" :=
  rfl

theorem apiVersion_default_raises : (ApiVersion.version .DEFAULT).isOk = false := by
  decide

/-- `ApiRequestor.build_request_headers`:

```python
def build_request_headers(self, *, headers=None, api_version=ApiVersion.DEFAULT,
                          api_key=None) -> Dict[str, str]:
    headers = {} if headers is None else headers.copy()
    headers.setdefault("Accept", "application/json")
    # note: we do not allow clients to overwrite user-agent, caplena-api-key
    # or caplena-api-version
    headers["User-Agent"] = Helpers.get_user_agent(identifier=self._http_client.identifier)
    if api_key is not None:
        headers["Caplena-API-Key"] = api_key
    if api_version != ApiVersion.DEFAULT:
        headers["Caplena-API-Version"] = api_version.version
    return headers
```

The user-agent string computed by the external `Helpers.get_user_agent` is
passed in as the parameter `ua`.  `dict.copy()` produces a fresh dict with the
same entries, so in this value-level embedding the copy is the identity; the
aliasing aspect is modelled separately by `buildRequestHeadersST` below. -/
def build_request_headers (ua : String) (headers : Option (List (String × String)))
    (api_version : ApiVersion) (api_key : Option String) :
    Except PyErr (List (String × String)) :=
  let h0 := match headers with
    | none => []
    | some hs => hs
  let h1 := dictSetdefault h0 "Accept" "application/json"
  let h2 := dictSet h1 "User-Agent" ua
  let h3 := match api_key with
    | some k => dictSet h2 "Caplena-API-Key" k
    | none => h2
  if api_version ≠ ApiVersion.DEFAULT then
    match api_version.version with
    | .ok vs => .ok (dictSet h3 "Caplena-API-Version" vs)
    | .error e => .error e
  else
    .ok h3

/-- Header lookup in the result of `build_request_headers`. -/
def lookupHeader (r : Except PyErr (List (String × String))) (k : String) :
    Option String :=
  match r with
  | .ok d => dlookup d k
  | .error _ => none

theorem buildHeaders_smoke :
    lookupHeader (build_request_headers "agent0" (some [("X-Custom", "1")])
      .VER_2021_12_01 (some "sk")) "Caplena-API-Version" = some "2021-12-01" := by
  decide

/-!
## Aliasing model of `build_request_headers`

To state that the method never mutates the *caller's* dict object, dicts are
given identity: a `DictStore` maps addresses (indices) to dict contents, the
caller passes the address of its dict, `headers.copy()` allocates a fresh
address, and every subsequent `headers[...] = ...` targets that fresh address.
`buildRequestHeadersST` is the same method body as `build_request_headers`,
with each dict operation made explicit about which address it writes. -/

structure DictStore where
  dicts : List (List (String × String))

/-- Contents of the dict at address `a`. -/
def storeGet (s : DictStore) (a : Nat) : List (String × String) :=
  s.dicts.getD a []

/-- Overwrite the contents of the dict at address `a`. -/
def storeSet (s : DictStore) (a : Nat) (d : List (String × String)) : DictStore :=
  ⟨s.dicts.set a d⟩

/-- Allocate a fresh dict with contents `d`, returning its address. -/
def storeAlloc (s : DictStore) (d : List (String × String)) : DictStore × Nat :=
  (⟨s.dicts ++ [d]⟩, s.dicts.length)

/-- `ApiRequestor.build_request_headers` over the dict store: `headersAddr` is
the address of the caller's dict (`none` for the `headers=None` default), the
result is the final store and the address of the returned dict. -/
def buildRequestHeadersST (ua : String) (s : DictStore) (headersAddr : Option Nat)
    (api_version : ApiVersion) (api_key : Option String) :
    DictStore × Except PyErr Nat :=
  let alloc := match headersAddr with
    | none => storeAlloc s []
    | some a => storeAlloc s (storeGet s a)
  let s1 := alloc.1
  let h := alloc.2
  let s2 := storeSet s1 h (dictSetdefault (storeGet s1 h) "Accept" "application/json")
  let s3 := storeSet s2 h (dictSet (storeGet s2 h) "User-Agent" ua)
  let s4 := match api_key with
    | some k => storeSet s3 h (dictSet (storeGet s3 h) "Caplena-API-Key" k)
    | none => s3
  if api_version ≠ ApiVersion.DEFAULT then
    match api_version.version with
    | .ok vs => (storeSet s4 h (dictSet (storeGet s4 h) "Caplena-API-Version" vs), .ok h)
    | .error e => (s4, .error e)
  else
    (s4, .ok h)

theorem listGetD_set_ne {α : Type} (l : List α) (i j : Nat) (x d : α) (h : j ≠ i) :
    (l.set i x).getD j d = l.getD j d := by
  induction l generalizing i j with
  | nil => simp [List.set]
  | cons a rest ih =>
    cases i with
    | zero =>
      cases j with
      | zero => exact absurd rfl h
      | succ j' => simp [List.set]
    | succ i' =>
      cases j with
      | zero => simp [List.set]
      | succ j' =>
        simp only [List.set, List.getD_cons_succ]
        exact ih i' j' (fun he => h (by rw [he]))

theorem listGetD_append_left {α : Type} (l l' : List α) (j : Nat) (d : α)
    (h : j < l.length) : (l ++ l').getD j d = l.getD j d := by
  induction l generalizing j with
  | nil => simp at h
  | cons a rest ih =>
    cases j with
    | zero => simp
    | succ j' =>
      simp only [List.cons_append, List.getD_cons_succ]
      exact ih j' (by simpa using Nat.lt_of_succ_lt_succ h)

theorem storeGet_storeSet_ne (s : DictStore) (h a : Nat) (d : List (String × String))
    (hne : a ≠ h) : storeGet (storeSet s h d) a = storeGet s a :=
  listGetD_set_ne s.dicts h a d [] hne

theorem storeGet_storeAlloc_old (s : DictStore) (d : List (String × String)) (a : Nat)
    (ha : a < s.dicts.length) : storeGet (storeAlloc s d).1 a = storeGet s a :=
  listGetD_append_left s.dicts [d] a [] ha

/-!
## `caplena/endpoints/base_endpoint.py`: `BaseController`

The verb methods delegate to the `ApiRequestor` (which performs the network
call through the external transport) and then classify the response:

```python
response = self._config.api_requestor.get(...)
if response.status_code not in allowed_codes:
    raise self._config.api_requestor.build_exc(response)
return response
```

The embedding takes the response produced by the requestor as an argument and
performs the classification.  The allowed-code sets default to the class-level
constants.
-/

/-- Modelled from the spec: `ApiRequestor.build_exc` is not under `src/`.  Per
the spec it constructs "a typed API error carrying status code, reason, and
parsed-or-raw body". -/
def buildExc (r : HttpResponse) : ApiException :=
  { status_code := r.status_code, reason := r.reason, body := r.text }

/-- `BaseController.DEFAULT_ALLOWED_CODES = frozenset({200})`. -/
def DEFAULT_ALLOWED_CODES : List Nat := [200]

/-- `BaseController.DEFAULT_ALLOWED_POST_CODES = frozenset({201})`. -/
def DEFAULT_ALLOWED_POST_CODES : List Nat := [201]

/-- `BaseController.DEFAULT_ALLOWED_DELETE_CODES = frozenset({204})`. -/
def DEFAULT_ALLOWED_DELETE_CODES : List Nat := [204]

/-- `BaseController.get`: classification of the requestor's response. -/
def controllerGet (response : HttpResponse)
    (allowed_codes : List Nat := DEFAULT_ALLOWED_CODES) : Except PyErr HttpResponse :=
  if response.status_code ∉ allowed_codes then
    .error (.apiException (buildExc response))
  else
    .ok response

/-- `BaseController.post`: classification of the requestor's response. -/
def controllerPost (response : HttpResponse)
    (allowed_codes : List Nat := DEFAULT_ALLOWED_POST_CODES) :
    Except PyErr HttpResponse :=
  if response.status_code ∉ allowed_codes then
    .error (.apiException (buildExc response))
  else
    .ok response

/-- `BaseController.put`: classification of the requestor's response. -/
def controllerPut (response : HttpResponse)
    (allowed_codes : List Nat := DEFAULT_ALLOWED_CODES) : Except PyErr HttpResponse :=
  if response.status_code ∉ allowed_codes then
    .error (.apiException (buildExc response))
  else
    .ok response

/-- `BaseController.patch`: classification of the requestor's response. -/
def controllerPatch (response : HttpResponse)
    (allowed_codes : List Nat := DEFAULT_ALLOWED_CODES) : Except PyErr HttpResponse :=
  if response.status_code ∉ allowed_codes then
    .error (.apiException (buildExc response))
  else
    .ok response

/-- `BaseController.delete`: classification of the requestor's response. -/
def controllerDelete (response : HttpResponse)
    (allowed_codes : List Nat := DEFAULT_ALLOWED_DELETE_CODES) :
    Except PyErr HttpResponse :=
  if response.status_code ∉ allowed_codes then
    .error (.apiException (buildExc response))
  else
    .ok response

/-- `BaseController._retrieve_json_or_raise`:

```python
def _retrieve_json_or_raise(self, response):
    json = response.json
    if json is None:
        raise self.api.build_exc(response)
    else:
        return json
```

Accessing `response.json` runs the property of `HttpResponse`; the returned
response state (the possibly-assigned `_json` attribute) is threaded through. -/
def retrieveJsonOrRaise (loads : String → Except PyErr (Option Json))
    (r : HttpResponse) : Except PyErr (Json × HttpResponse) :=
  match r.jsonGet loads with
  | .error e => .error e
  | .ok (none, r') => .error (.apiException (buildExc r'))
  | .ok (some j, r') => .ok (j, r')

/-!
## `BaseObject`: schema-declared, partially mutable resource objects

A `BObj` carries the class-level schema (`fields` = `__fields__`,
`mutableFields` = `__mutable__`), the instance state `attrs` (= `_attrs`),
`dirty` (= `_unpersisted_attributes`, as an insertion-ordered duplicate-free
list) and `controller` (= `_controller`).  Controller references are modelled
by their identity as a `Nat`, since the claims are about reference sharing.
The `extra` component models ordinary instance attributes stored by the
`super().__setattr__(name, value)` branch of `__setattr__` for names outside
the declared schema.  Attribute values are scalars, nested objects, or lists. -/

mutual
inductive Attr where
  | scalar (v : Json) : Attr
  | obj (o : BObj) : Attr
  | list (xs : List Attr) : Attr

inductive BObj where
  | mk (fields : List String) (mutableFields : List String)
       (attrs : List (String × Attr)) (dirty : List String)
       (controller : Option Nat) (extra : List (String × Attr)) : BObj
end

def BObj.fieldsOf : BObj → List String
  | .mk f _ _ _ _ _ => f

def BObj.mutableOf : BObj → List String
  | .mk _ m _ _ _ _ => m

def BObj.attrsOf : BObj → List (String × Attr)
  | .mk _ _ a _ _ _ => a

def BObj.dirtyOf : BObj → List String
  | .mk _ _ _ d _ _ => d

def BObj.controllerOf : BObj → Option Nat
  | .mk _ _ _ _ c _ => c

mutual
/-- `BaseObject._recursive_controller_set`:

```python
def _recursive_controller_set(self, attr, *, value):
    if isinstance(attr, BaseObject):
        print("setting recursive value.")
        self._controller = value
    elif isinstance(attr, list):
        [self._recursive_controller_set(i, value=value) for i in attr]
```

The method's only state effect is (re-)assigning `self._controller` — the
nested object `attr` is never written to — so it is embedded as a function
from the current value of `self._controller` to its new value. -/
def recursiveControllerSet (c : Option Nat) (attr : Attr) (value : Nat) : Option Nat :=
  match attr with
  | .obj _ => some value
  | .list xs => recursiveControllerSetList c xs value
  | .scalar _ => c

/-- The list comprehension in `_recursive_controller_set`, element by element. -/
def recursiveControllerSetList (c : Option Nat) (xs : List Attr) (value : Nat) :
    Option Nat :=
  match xs with
  | [] => c
  | x :: rest => recursiveControllerSetList (recursiveControllerSet c x value) rest value
end

/-- The `for field in self.__fields__` loop of the controller setter; each
iteration reads `self._attrs[field]` (raising `KeyError` when absent) and runs
`_recursive_controller_set` on it, updating `self._controller`. -/
def setControllerLoop (attrs : List (String × Attr)) (value : Nat) :
    Option Nat → List String → Except PyErr (Option Nat)
  | c, [] => .ok c
  | c, f :: rest =>
    match dlookup attrs f with
    | none => .error (.keyError f)
    | some a => setControllerLoop attrs value (recursiveControllerSet c a value) rest

/-- The `BaseObject.controller` setter:

```python
@controller.setter
def controller(self, value):
    self._controller = value
    for field in self.__fields__:
        self._recursive_controller_set(self._attrs[field], value=value)
``` -/
def setController (o : BObj) (value : Nat) : Except PyErr BObj :=
  match o with
  | .mk f m a d _ e =>
    match setControllerLoop a value (some value) f with
    | .error err => .error err
    | .ok c => .ok (.mk f m a d c e)

/-- Modelled from the spec: `Helpers.partial_dict` (in `caplena/helpers.py`,
not under `src/`) is described as "filter the input mapping down to declared
fields, discard the rest". -/
def pickAllowed (attrs : List (String × Attr)) (fields : List String) :
    List (String × Attr) :=
  attrs.filter (fun p => fields.contains p.1)

/-- `BaseObject.refresh_from`:

```python
def refresh_from(self, *, attrs):
    # pick only allowed attributes
    partial = Helpers.partial_dict(attrs, self.__fields__)
    validated = partial
    self._attrs = validated
    self._unpersisted_attributes = set()
``` -/
def refresh_from (o : BObj) (attrs : List (String × Attr)) : BObj :=
  match o with
  | .mk f m _ _ c e => .mk f m (pickAllowed attrs f) [] c e

/-- `BaseObject.__init__`: sets `self._controller = None`, then
`self.refresh_from(attrs=attrs)`. -/
def initBaseObject (fields mutableFields : List String)
    (attrs : List (String × Attr)) : BObj :=
  refresh_from (.mk fields mutableFields [] [] none []) attrs

/-- Python `set.add` on the dirty set (modelled as a duplicate-free list). -/
def pySetAdd (s : List String) (x : String) : List String :=
  if x ∈ s then s else s ++ [x]

/-- `BaseObject.__setattr__`:

```python
def __setattr__(self, name, value):
    if name in self.__fields__ and name in self.__mutable__:
        self._unpersisted_attributes.add(name)
        self._attrs[name] = value
    elif name in self.__fields__:
        raise AttributeError(f"{name}. HINT: You cannot modify this attribute, as it is immutable.")
    else:
        super().__setattr__(name, value)
```

A raised error performs no state change: the `raise` happens before any
mutation in its branch, so on the `.error` outcome the object is unchanged. -/
def bsetattr (o : BObj) (name : String) (value : Attr) : Except PyErr BObj :=
  match o with
  | .mk f m a d c e =>
    if name ∈ f ∧ name ∈ m then
      .ok (.mk f m (dictSet a name value) (pySetAdd d name) c e)
    else if name ∈ f then
      .error (.attributeError
        (name ++ ". HINT: You cannot modify this attribute, as it is immutable."))
    else
      .ok (.mk f m a d c (dictSet e name value))

/-- `BaseObject.__delattr__`:

```python
def __delattr__(self, name):
    raise ValueError(f"{name}. HINT: You cannot delete any attributes.")
``` -/
def bdelattr (_o : BObj) (name : String) : Except PyErr BObj :=
  .error (.valueError (name ++ ". HINT: You cannot delete any attributes."))

/-!
The recursive export functions below take an explicit `fuel` argument
modelling Python's recursion-depth limit (exceeding it raises
`RecursionError`); every recursive call consumes one unit.  Each call
descends into a strictly smaller substructure, so the recursion depth of the
source traversal is finite on every input and any sufficiently large fuel
computes it; theorems about concrete objects are stated for every
sufficiently large fuel (`∀ n, ... (n + k) ...`), making them independent of
the modelling artifact.
-/

mutual
/-- `BaseObject._recursive_dict`:

```python
def _recursive_dict(self, attr):
    if isinstance(attr, BaseObject):
        return attr.dict()
    elif isinstance(attr, list):
        return [self._recursive_dict(i) for i in attr]
    else:
        return attr
``` -/
def recursiveDictF : Nat → Attr → Except PyErr Json
  | 0, _ => .error .recursionError
  | n + 1, .obj o => bdictF n o
  | n + 1, .list xs =>
    match recursiveDictListF n xs with
    | .ok js => .ok (.arr js)
    | .error e => .error e
  | _ + 1, .scalar v => .ok v

/-- The list comprehension in `_recursive_dict`, element by element. -/
def recursiveDictListF : Nat → List Attr → Except PyErr (List Json)
  | 0, _ => .error .recursionError
  | _ + 1, [] => .ok []
  | n + 1, x :: rest =>
    match recursiveDictF n x with
    | .error e => .error e
    | .ok j =>
      match recursiveDictListF n rest with
      | .error e => .error e
      | .ok js => .ok (j :: js)

/-- `BaseObject.dict`:

```python
def dict(self):
    resource = {}
    for field in self.__fields__:
        attr = self._attrs[field]
        resource[field] = self._recursive_dict(attr)
    return resource
``` -/
def bdictF : Nat → BObj → Except PyErr Json
  | 0, _ => .error .recursionError
  | n + 1, .mk f _ a _ _ _ =>
    match bdictLoopF n a f with
    | .ok kvs => .ok (.obj kvs)
    | .error e => .error e

/-- The `for field in self.__fields__` loop of `dict`: each iteration reads
`self._attrs[field]` (raising `KeyError` when absent) and exports it. -/
def bdictLoopF : Nat → List (String × Attr) → List String →
    Except PyErr (List (String × Json))
  | 0, _, _ => .error .recursionError
  | _ + 1, _, [] => .ok []
  | n + 1, a, f :: rest =>
    match dlookup a f with
    | none => .error (.keyError f)
    | some attr =>
      match recursiveDictF n attr with
      | .error e => .error e
      | .ok j =>
        match bdictLoopF n a rest with
        | .error e => .error e
        | .ok kvs => .ok ((f, j) :: kvs)
end

/-- `BaseObject.build_obj`:

```python
@classmethod
def build_obj(cls, obj, *, controller):
    instance = cls.parse_obj(obj)
    instance.controller = controller
    return instance
```

`parse_obj` is resource-specific (the base class raises `NotImplementedError`),
so it is a parameter. -/
def build_obj (parseObj : Json → Except PyErr BObj) (obj : Json)
    (controller : Nat) : Except PyErr BObj :=
  match parseObj obj with
  | .error e => .error e
  | .ok inst => setController inst controller

/-- `BaseController.build_response`:

```python
def build_response(self, response, *, resource):
    json = self._retrieve_json_or_raise(response)
    return resource.build_obj(obj=json, controller=self)
``` -/
def build_response (loads : String → Except PyErr (Option Json))
    (parseObj : Json → Except PyErr BObj) (controller : Nat)
    (r : HttpResponse) : Except PyErr BObj :=
  match retrieveJsonOrRaise loads r with
  | .error e => .error e
  | .ok (j, _) => build_obj parseObj j controller

/-- Modelled from the spec: required-field validation at construction.  The
enforcement lives outside `src/` (concrete resource constructors whose
parameters without defaults are the required fields; `BaseObject.parse_obj`
is abstract in `src/`).  Per the spec, construction "raises
`SchemaViolationError` only if a *required* field (implementation-defined:
fields without a default) is missing", and "never raises for unknown extra
input fields"; the stored state is that of `BaseObject.__init__`. -/
def constructObj (fields mutableFields required : List String)
    (attrs : List (String × Attr)) : Except PyErr BObj :=
  if required.all (fun f => (dlookup attrs f).isSome) then
    .ok (initBaseObject fields mutableFields attrs)
  else
    .error (.schemaViolation "required field missing")

/-!
## Claim theorems
-/

/-- Claim C1: every dispatcher verb (`get`, `post`, `put`, `patch`, `delete`)
raises the typed API error exactly when the response's status code is not in
the allowed set, and otherwise returns the response envelope unchanged; the
default allowed sets are `{200}` for GET/PUT/PATCH, `{201}` for POST and
`{204}` for DELETE. -/
theorem claim_C1_dispatch :
    (∀ (allowed : List Nat) (r : HttpResponse),
        controllerGet r allowed
            = (if r.status_code ∈ allowed then .ok r
               else .error (.apiException (buildExc r)))
          ∧ controllerPost r allowed
            = (if r.status_code ∈ allowed then .ok r
               else .error (.apiException (buildExc r)))
          ∧ controllerPut r allowed
            = (if r.status_code ∈ allowed then .ok r
               else .error (.apiException (buildExc r)))
          ∧ controllerPatch r allowed
            = (if r.status_code ∈ allowed then .ok r
               else .error (.apiException (buildExc r)))
          ∧ controllerDelete r allowed
            = (if r.status_code ∈ allowed then .ok r
               else .error (.apiException (buildExc r))))
      ∧ DEFAULT_ALLOWED_CODES = [200]
      ∧ DEFAULT_ALLOWED_POST_CODES = [201]
      ∧ DEFAULT_ALLOWED_DELETE_CODES = [204]
      ∧ (∀ r : HttpResponse, controllerGet r = controllerGet r [200])
      ∧ (∀ r : HttpResponse, controllerPut r = controllerPut r [200])
      ∧ (∀ r : HttpResponse, controllerPatch r = controllerPatch r [200])
      ∧ (∀ r : HttpResponse, controllerPost r = controllerPost r [201])
      ∧ (∀ r : HttpResponse, controllerDelete r = controllerDelete r [204]) := by
  refine ⟨?_, rfl, rfl, rfl, fun _ => rfl, fun _ => rfl, fun _ => rfl,
    fun _ => rfl, fun _ => rfl⟩
  intro allowed r
  by_cases h : r.status_code ∈ allowed <;>
    simp [controllerGet, controllerPost, controllerPut, controllerPatch,
      controllerDelete, h]

/-- Claim C2 as stated is false: with `api_key=None`, a caller-supplied value
for the reserved header `Caplena-API-Key` survives into the output (the code
only overwrites that header when `api_key is not None`). -/
theorem claim_C2_counterexample :
    lookupHeader (build_request_headers "agent0"
        (some [("Caplena-API-Key", "evil")]) .DEFAULT none)
      "Caplena-API-Key" = some "evil" := by decide

/-- Claim C2 (amended): `User-Agent` is always overwritten; `Caplena-API-Key`
is overwritten whenever `api_key` is not `None`; `Caplena-API-Version` is
overwritten whenever the version is non-default; in particular the spoofing
example with `api_key="real"` yields `"real"`.  (With `api_key=None` or the
default version, a caller-supplied value for those two headers survives.) -/
theorem claim_C2_amended :
    (∀ (ua : String) (hdrs : Option (List (String × String))) (ver : ApiVersion)
        (key : String),
        lookupHeader (build_request_headers ua hdrs ver (some key))
          "Caplena-API-Key" = some key)
      ∧ (∀ (ua : String) (hdrs : Option (List (String × String)))
          (ver : ApiVersion) (key : Option String),
          lookupHeader (build_request_headers ua hdrs ver key)
            "User-Agent" = some ua)
      ∧ (∀ (ua : String) (hdrs : Option (List (String × String)))
          (key : Option String),
          lookupHeader (build_request_headers ua hdrs .VER_2021_12_01 key)
            "Caplena-API-Version" = some "2021-12-01")
      ∧ lookupHeader (build_request_headers "agent0"
          (some [("Caplena-API-Key", "evil")]) .DEFAULT (some "real"))
          "Caplena-API-Key" = some "real" := by
  refine ⟨?_, ?_, ?_, by decide⟩
  · intro ua hdrs ver key
    cases ver with
    | DEFAULT =>
      simp [build_request_headers, lookupHeader]
      exact dlookup_dictSet_self _ _ _
    | VER_2021_12_01 =>
      simp [build_request_headers, lookupHeader, ApiVersion.version, ApiVersion.pyName]
      rw [dlookup_dictSet_ne _ _ _ _ (by decide)]
      exact dlookup_dictSet_self _ _ _
  · intro ua hdrs ver key
    cases ver with
    | DEFAULT =>
      cases key with
      | none =>
        simp [build_request_headers, lookupHeader]
        exact dlookup_dictSet_self _ _ _
      | some k =>
        simp [build_request_headers, lookupHeader]
        rw [dlookup_dictSet_ne _ _ _ _ (by decide)]
        exact dlookup_dictSet_self _ _ _
    | VER_2021_12_01 =>
      cases key with
      | none =>
        simp [build_request_headers, lookupHeader, ApiVersion.version, ApiVersion.pyName]
        rw [dlookup_dictSet_ne _ _ _ _ (by decide)]
        exact dlookup_dictSet_self _ _ _
      | some k =>
        simp [build_request_headers, lookupHeader, ApiVersion.version, ApiVersion.pyName]
        rw [dlookup_dictSet_ne _ _ _ _ (by decide),
          dlookup_dictSet_ne _ _ _ _ (by decide)]
        exact dlookup_dictSet_self _ _ _
  · intro ua hdrs key
    cases key with
    | none =>
      simp [build_request_headers, lookupHeader, ApiVersion.version, ApiVersion.pyName]
      exact dlookup_dictSet_self _ _ _
    | some k =>
      simp [build_request_headers, lookupHeader, ApiVersion.version, ApiVersion.pyName]
      exact dlookup_dictSet_self _ _ _

/-- Claim C9: `build_request_headers` omits the `Caplena-API-Version` header
exactly when the version is the default sentinel (stated for caller headers
that do not themselves carry that reserved key), and for the non-default
version the header value is the enum member name with the `VER_` marker
stripped and underscores replaced by hyphens: `VER_2021_12_01` yields
`"2021-12-01"`. -/
theorem claim_C9_version_header :
    (∀ (ua : String) (hdrs : List (String × String)) (key : Option String),
        dlookup hdrs "Caplena-API-Version" = none →
        lookupHeader (build_request_headers ua (some hdrs) .DEFAULT key)
          "Caplena-API-Version" = none)
      ∧ (∀ (ua : String) (hdrs : Option (List (String × String)))
          (key : Option String),
          lookupHeader (build_request_headers ua hdrs .VER_2021_12_01 key)
            "Caplena-API-Version" = some "2021-12-01")
      ∧ ApiVersion.version .VER_2021_12_01 = .ok "2021-12-01"
      ∧ ApiVersion.pyName .VER_2021_12_01 = "VER_2021_12_01" := by
  refine ⟨?_, ?_, rfl, rfl⟩
  · intro ua hdrs key habs
    cases key with
    | none =>
      simp [build_request_headers, lookupHeader]
      rw [dlookup_dictSet_ne _ _ _ _ (by decide),
        dlookup_dictSetdefault_ne _ _ _ _ (by decide)]
      exact habs
    | some k =>
      simp [build_request_headers, lookupHeader]
      rw [dlookup_dictSet_ne _ _ _ _ (by decide),
        dlookup_dictSet_ne _ _ _ _ (by decide),
        dlookup_dictSetdefault_ne _ _ _ _ (by decide)]
      exact habs
  · intro ua hdrs key
    cases key with
    | none =>
      simp [build_request_headers, lookupHeader, ApiVersion.version,
        ApiVersion.pyName]
      exact dlookup_dictSet_self _ _ _
    | some k =>
      simp [build_request_headers, lookupHeader, ApiVersion.version,
        ApiVersion.pyName]
      exact dlookup_dictSet_self _ _ _

/-- Witness for C9 at a concrete input: caller headers without the version
key, default version, no api key — the output omits the version header. -/
theorem claim_C9_version_header_witness :
    dlookup [("Accept", "text/plain")] "Caplena-API-Version" = none
      ∧ lookupHeader (build_request_headers "ua0"
          (some [("Accept", "text/plain")]) .DEFAULT none)
          "Caplena-API-Version" = none :=
  ⟨by decide,
    claim_C9_version_header.1 "ua0" [("Accept", "text/plain")] none (by decide)⟩

theorem listGetD_append_self {α : Type} (l : List α) (x d : α) :
    (l ++ [x]).getD l.length d = x := by
  induction l with
  | nil => rfl
  | cons a rest ih => simp [ih]

theorem listSet_append_self {α : Type} (l : List α) (x y : α) :
    (l ++ [x]).set l.length y = l ++ [y] := by
  induction l with
  | nil => rfl
  | cons a rest ih => simp [List.set, ih]

theorem buildST_unfold (ua : String) (s : DictStore) (a : Nat) (ver : ApiVersion)
    (key : Option String) :
    ∃ d : List (String × String),
      buildRequestHeadersST ua s (some a) ver key
          = (⟨s.dicts ++ [d]⟩, .ok s.dicts.length)
        ∧ build_request_headers ua (some (storeGet s a)) ver key = .ok d := by
  cases ver <;> cases key <;>
    refine ⟨_, ?_, rfl⟩ <;>
    simp [buildRequestHeadersST, build_request_headers, storeAlloc, storeGet,
      storeSet, listGetD_append_self, listSet_append_self, ApiVersion.version,
      ApiVersion.pyName]

/-- Claim C10: `build_request_headers` never mutates the caller's headers
dict (the caller's address in the dict store holds the same contents after
the call, the output being a fresh copy); every caller entry whose key is not
one of the three reserved headers appears unchanged in the output; and the
`Accept` header is set to `"application/json"` exactly on the paths where the
caller did not supply an `Accept` entry (a caller-supplied `Accept` value is
preserved, being a non-reserved key). -/
theorem claim_C10_caller_headers_frame :
    (∀ (ua : String) (s : DictStore) (a : Nat) (ver : ApiVersion)
        (key : Option String), a < s.dicts.length →
        storeGet (buildRequestHeadersST ua s (some a) ver key).1 a = storeGet s a)
      ∧ (∀ (ua : String) (s : DictStore) (a : Nat) (ver : ApiVersion)
          (key : Option String),
          ∃ d : List (String × String),
            buildRequestHeadersST ua s (some a) ver key
                = (⟨s.dicts ++ [d]⟩, .ok s.dicts.length)
              ∧ build_request_headers ua (some (storeGet s a)) ver key = .ok d)
      ∧ (∀ (ua : String) (hdrs : List (String × String)) (ver : ApiVersion)
          (key : Option String) (k v : String),
          k ≠ "User-Agent" → k ≠ "Caplena-API-Key" → k ≠ "Caplena-API-Version" →
          dlookup hdrs k = some v →
          lookupHeader (build_request_headers ua (some hdrs) ver key) k = some v)
      ∧ (∀ (ua : String) (hdrs : List (String × String)) (ver : ApiVersion)
          (key : Option String),
          dlookup hdrs "Accept" = none →
          lookupHeader (build_request_headers ua (some hdrs) ver key)
            "Accept" = some "application/json") := by
  refine ⟨?_, buildST_unfold, ?_, ?_⟩
  · intro ua s a ver key ha
    obtain ⟨d, hst, _⟩ := buildST_unfold ua s a ver key
    rw [hst]
    exact listGetD_append_left s.dicts [d] a [] ha
  · intro ua hdrs ver key k v hUA hCAK hCAV hin
    have hstep : ∀ d : List (String × String), dlookup d k = some v →
        dlookup (dictSet d "User-Agent" ua) k = some v := by
      intro d hd
      rw [dlookup_dictSet_ne _ _ _ _ hUA]
      exact hd
    have hbase : dlookup (dictSetdefault hdrs "Accept" "application/json") k
        = some v := by
      by_cases hacc : k = "Accept"
      · subst hacc
        exact dlookup_dictSetdefault_present _ _ _ _ hin
      · rw [dlookup_dictSetdefault_ne _ _ _ _ hacc]
        exact hin
    cases ver with
    | DEFAULT =>
      cases key with
      | none =>
        simp [build_request_headers, lookupHeader]
        exact hstep _ hbase
      | some kk =>
        simp [build_request_headers, lookupHeader]
        rw [dlookup_dictSet_ne _ _ _ _ hCAK]
        exact hstep _ hbase
    | VER_2021_12_01 =>
      cases key with
      | none =>
        simp [build_request_headers, lookupHeader, ApiVersion.version,
          ApiVersion.pyName]
        rw [dlookup_dictSet_ne _ _ _ _ hCAV]
        exact hstep _ hbase
      | some kk =>
        simp [build_request_headers, lookupHeader, ApiVersion.version,
          ApiVersion.pyName]
        rw [dlookup_dictSet_ne _ _ _ _ hCAV, dlookup_dictSet_ne _ _ _ _ hCAK]
        exact hstep _ hbase
  · intro ua hdrs ver key habs
    have hbase : dlookup (dictSetdefault hdrs "Accept" "application/json")
        "Accept" = some "application/json" :=
      dlookup_dictSetdefault_absent _ _ _ habs
    cases ver with
    | DEFAULT =>
      cases key with
      | none =>
        simp [build_request_headers, lookupHeader]
        rw [dlookup_dictSet_ne _ _ _ _ (by decide)]
        exact hbase
      | some kk =>
        simp [build_request_headers, lookupHeader]
        rw [dlookup_dictSet_ne _ _ _ _ (by decide),
          dlookup_dictSet_ne _ _ _ _ (by decide)]
        exact hbase
    | VER_2021_12_01 =>
      cases key with
      | none =>
        simp [build_request_headers, lookupHeader, ApiVersion.version,
          ApiVersion.pyName]
        rw [dlookup_dictSet_ne _ _ _ _ (by decide),
          dlookup_dictSet_ne _ _ _ _ (by decide)]
        exact hbase
      | some kk =>
        simp [build_request_headers, lookupHeader, ApiVersion.version,
          ApiVersion.pyName]
        rw [dlookup_dictSet_ne _ _ _ _ (by decide),
          dlookup_dictSet_ne _ _ _ _ (by decide),
          dlookup_dictSet_ne _ _ _ _ (by decide)]
        exact hbase

/-- Witness for C10 at concrete inputs: a one-dict store is unchanged at the
caller's address, a custom caller entry survives, and `Accept` is defaulted
when absent. -/
theorem claim_C10_caller_headers_frame_witness :
    storeGet (buildRequestHeadersST "ua0" ⟨[[("X-Custom", "1")]]⟩ (some 0)
        .DEFAULT none).1 0 = storeGet ⟨[[("X-Custom", "1")]]⟩ 0
      ∧ lookupHeader (build_request_headers "ua0" (some [("X-Custom", "1")])
          .DEFAULT none) "X-Custom" = some "1"
      ∧ lookupHeader (build_request_headers "ua0" (some [("X-Custom", "1")])
          .DEFAULT none) "Accept" = some "application/json" :=
  ⟨claim_C10_caller_headers_frame.1 "ua0" ⟨[[("X-Custom", "1")]]⟩ 0 .DEFAULT none
      (by decide),
    claim_C10_caller_headers_frame.2.2.1 "ua0" [("X-Custom", "1")] .DEFAULT none
      "X-Custom" "1" (by decide) (by decide) (by decide) (by decide),
    claim_C10_caller_headers_frame.2.2.2 "ua0" [("X-Custom", "1")] .DEFAULT none
      (by decide)⟩

/-!
## Concrete objects used by the claims about `BaseObject`
-/

/-- A nested child object with no controller attached. -/
def exChild : BObj := .mk ["x"] [] [("x", .scalar (.str "v"))] [] none []

/-- A parent object owning `exChild` under its declared field `"child"`. -/
def exParent : BObj := .mk ["child"] [] [("child", .obj exChild)] [] none []

/-- Claim C3 is right and the code is wrong: `_recursive_controller_set`
assigns `self._controller` (the parent's own attribute) instead of writing to
the nested object, so attaching a controller to a parent leaves every nested
Resource Object detached.  At the concrete input: attaching controller `7` to
`exParent` yields a parent whose own controller is `7` but whose stored child
subtree is unchanged, the child's controller still `none`. -/
theorem claim_C3_controller_propagation_bug :
    setController exParent 7
        = .ok (.mk ["child"] [] [("child", .obj exChild)] [] (some 7) [])
      ∧ exChild.controllerOf = none := by
  constructor
  · simp [setController, exParent, setControllerLoop, dlookup_cons,
      recursiveControllerSet]
  · rfl

/-- Claim C4 is right about the intent and the code is wrong: `__init__` never
initializes the `_json` attribute, so the very first access of the `json`
property raises `AttributeError` — for a JSON body and for an empty body alike
— instead of computing the parsed value (or `None`).  Moreover, even starting
from the state the initializer evidently intended (`_json` preset to `None`),
the parse branch lacks a `return`, so the first access on a non-empty body
parses and caches the value but itself returns `None`. -/
theorem claim_C4_lazy_json_bug :
    (∀ loads, HttpResponse.jsonGet loads
        (HttpResponse.init 200 "OK" (some "x") none)
        = .error (.attributeError "_json"))
      ∧ (∀ loads, HttpResponse.jsonGet loads
          (HttpResponse.init 204 "No Content" none none)
          = .error (.attributeError "_json"))
      ∧ (∀ v : Option Json, HttpResponse.jsonGet (fun _ => .ok v)
          { HttpResponse.init 200 "OK" (some "x") none with jsonSlot := some none }
          = .ok (none,
              { HttpResponse.init 200 "OK" (some "x") none with
                  jsonSlot := some v })) :=
  ⟨fun _ => rfl, fun _ => rfl, fun _ => rfl⟩

/-- Claim C5 is right about the intent and the code is wrong, because
`build_response` goes through `HttpResponse.json`: on a fresh response (empty
body or not) `_retrieve_json_or_raise` raises `AttributeError` from the
uninitialized `_json` attribute instead of the typed API error; and even with
`_json` preset to `None`, a success response carrying a valid JSON body makes
`build_response` raise the typed API error (the first property access returns
`None`) instead of returning the materialized Resource Object. -/
theorem claim_C5_build_response_bug :
    (∀ loads parseObj ctrl, build_response loads parseObj ctrl
        (HttpResponse.init 200 "OK" none none)
        = .error (.attributeError "_json"))
      ∧ (∀ parseObj ctrl (v : Json),
          build_response (fun _ => .ok (some v)) parseObj ctrl
            { HttpResponse.init 200 "OK" (some "x") none with jsonSlot := some none }
            = .error (.apiException
                { status_code := 200, reason := "OK", body := some "x" })) :=
  ⟨fun _ _ _ => rfl, fun _ _ _ => rfl⟩

/-- A schema with fields `{id, name}` of which only `name` is mutable. -/
def exRecord : BObj :=
  .mk ["id", "name"] ["name"]
    [("id", .scalar (.str "r1")), ("name", .scalar (.str "Foo"))] [] none []

/-- Claim C6 as stated is false in one respect: it says both the immutable
write and the delete raise the same `ImmutableFieldError`, but at the concrete
input the rejected write raises an `AttributeError` while the rejected delete
raises a `ValueError` — two different standard classes, so no single error
class covers both as the claim asserts. -/
theorem claim_C6_counterexample :
    errClassOf (bsetattr exRecord "id" (.scalar (.str "zzz")))
        = some "AttributeError"
      ∧ errClassOf (bdelattr exRecord "id") = some "ValueError"
      ∧ ("AttributeError" : String) ≠ "ValueError" :=
  ⟨rfl, rfl, by decide⟩

/-- Claim C6 (amended): writing to a declared mutable field stores the value
and adds the field to the dirty set; writing to a declared immutable field is
rejected with an `AttributeError` (raised before any state change, so the
object is unmodified); deleting any attribute is always rejected, with a
`ValueError` — the write and delete rejections use two different standard
error classes rather than one shared `ImmutableFieldError`. -/
theorem claim_C6_amended :
    (∀ (f m : List String) (a : List (String × Attr)) (d : List String)
        (c : Option Nat) (e : List (String × Attr)) (name : String) (v : Attr),
        name ∈ f → name ∈ m →
        bsetattr (.mk f m a d c e) name v
            = .ok (.mk f m (dictSet a name v) (pySetAdd d name) c e)
          ∧ dlookup (dictSet a name v) name = some v
          ∧ name ∈ pySetAdd d name)
      ∧ (∀ (f m : List String) (a : List (String × Attr)) (d : List String)
          (c : Option Nat) (e : List (String × Attr)) (name : String) (v : Attr),
          name ∈ f → name ∉ m →
          bsetattr (.mk f m a d c e) name v
            = .error (.attributeError
                (name ++ ". HINT: You cannot modify this attribute, as it is immutable.")))
      ∧ (∀ (o : BObj) (name : String),
          bdelattr o name
            = .error (.valueError
                (name ++ ". HINT: You cannot delete any attributes."))) := by
  refine ⟨?_, ?_, fun _ _ => rfl⟩
  · intro f m a d c e name v hf hm
    refine ⟨?_, dlookup_dictSet_self a name v, ?_⟩
    · simp [bsetattr, hf, hm]
    · unfold pySetAdd
      by_cases hd : name ∈ d
      · simp [hd]
      · simp [hd]
  · intro f m a d c e name v hf hm
    simp [bsetattr, hf, hm]

/-- Witness for the amended C6 at concrete inputs: on `exRecord`, writing the
mutable field `"name"` succeeds, marking it dirty; writing the immutable field
`"id"` raises. -/
theorem claim_C6_amended_witness :
    (bsetattr exRecord "name" (.scalar (.str "Bar"))
        = .ok (.mk ["id", "name"] ["name"]
            (dictSet [("id", .scalar (.str "r1")), ("name", .scalar (.str "Foo"))]
              "name" (.scalar (.str "Bar")))
            (pySetAdd [] "name") none [])
      ∧ dlookup (dictSet [("id", Attr.scalar (Json.str "r1")),
          ("name", Attr.scalar (Json.str "Foo"))] "name"
            (Attr.scalar (Json.str "Bar"))) "name"
          = some (Attr.scalar (Json.str "Bar"))
      ∧ "name" ∈ pySetAdd [] "name")
      ∧ bsetattr exRecord "id" (.scalar (.str "zzz"))
        = .error (.attributeError
            ("id" ++ ". HINT: You cannot modify this attribute, as it is immutable.")) :=
  ⟨claim_C6_amended.1 ["id", "name"] ["name"]
      [("id", .scalar (.str "r1")), ("name", .scalar (.str "Foo"))] [] none []
      "name" (.scalar (.str "Bar")) (by simp) (by simp),
    claim_C6_amended.2.1 ["id", "name"] ["name"]
      [("id", .scalar (.str "r1")), ("name", .scalar (.str "Foo"))] [] none []
      "id" (.scalar (.str "zzz")) (by simp) (by simp)⟩

/-- Claim C7: materialization stores exactly the input entries whose keys are
declared fields (unknown keys silently dropped, never an error — construction
is total); materializing `{"id": "r1", "name": "Foo", "unknown": 1}` against a
schema with fields `{id, name}` yields an object whose export (`dict()`, for
every sufficient recursion budget) is exactly `{"id": "r1", "name": "Foo"}`. -/
theorem claim_C7_unknown_fields_dropped :
    (∀ (fields mutableFields : List String) (attrs : List (String × Attr)),
        (initBaseObject fields mutableFields attrs).attrsOf
          = attrs.filter (fun p => fields.contains p.1))
      ∧ (∀ n : Nat, bdictF (n + 4) (initBaseObject ["id", "name"] []
          [("id", .scalar (.str "r1")), ("name", .scalar (.str "Foo")),
           ("unknown", .scalar (.num 1))])
        = .ok (.obj [("id", .str "r1"), ("name", .str "Foo")])) := by
  constructor
  · intro fields mutableFields attrs
    rfl
  · intro n
    rfl

/-- Claim C8: construction never raises because of unknown extra input fields
— the outcome depends only on whether every required field (one without a
default) is present — succeeding with the `__init__` state when all required
fields are present, and raising `SchemaViolationError` when some required
field is missing. -/
theorem claim_C8_required_field_validation :
    (∀ (fields mutableFields required : List String)
        (attrs : List (String × Attr)),
        (∀ f ∈ required, (dlookup attrs f).isSome) →
        constructObj fields mutableFields required attrs
          = .ok (initBaseObject fields mutableFields attrs))
      ∧ (∀ (fields mutableFields required : List String)
          (attrs : List (String × Attr)),
          (∃ f ∈ required, dlookup attrs f = none) →
          constructObj fields mutableFields required attrs
            = .error (.schemaViolation "required field missing")) := by
  constructor
  · intro fields mutableFields required attrs hall
    unfold constructObj
    rw [if_pos]
    exact List.all_eq_true.mpr hall
  · intro fields mutableFields required attrs ⟨f, hf, hnone⟩
    unfold constructObj
    rw [if_neg]
    intro hall
    have := List.all_eq_true.mp hall f hf
    rw [hnone] at this
    simp at this

/-- Witness for C8 at concrete inputs: with required fields `{id}`, an input
carrying `id` plus an unknown key constructs fine, and an input missing `id`
raises. -/
theorem claim_C8_required_field_validation_witness :
    constructObj ["id", "name"] ["name"] ["id"]
        [("id", .scalar (.str "r1")), ("unknown", .scalar (.num 1))]
        = .ok (initBaseObject ["id", "name"] ["name"]
            [("id", .scalar (.str "r1")), ("unknown", .scalar (.num 1))])
      ∧ constructObj ["id", "name"] ["name"] ["id"]
          [("unknown", .scalar (.num 1))]
          = .error (.schemaViolation "required field missing") :=
  ⟨claim_C8_required_field_validation.1 ["id", "name"] ["name"] ["id"]
      [("id", .scalar (.str "r1")), ("unknown", .scalar (.num 1))]
      (by intro f hf; simp at hf; subst hf; simp [dlookup_cons]),
    claim_C8_required_field_validation.2 ["id", "name"] ["name"] ["id"]
      [("unknown", .scalar (.num 1))]
      ⟨"id", by simp, by simp [dlookup_cons, dlookup_nil]⟩⟩
